import Mathlib

/-!
Verification development for the AIWebScraper repository (Next.js gateway,
polling client, and the quality scorer contract).

The Next.js API routes are pure request transformers: each handler parses a
JSON body, validates it, optionally forwards one HTTP request to the Python
backend, and produces a JSON response. We embed each handler as a function
from its parsed input (plus oracles for the external URL parser and the
backend) to the pair (response, list of backend calls made). JavaScript
falsiness of optional string fields is modelled with `Option String` plus
emptiness checks, matching each `x || y` in the source.
-/

/-- JSON values, as far as the gateway routes inspect or build them. -/
inductive JsonVal where
  | nullV : JsonVal
  | str : String → JsonVal
  | num : Int → JsonVal
  | boolV : Bool → JsonVal
  | obj : List (String × JsonVal) → JsonVal

/-- Lookup of a key in a JSON object field list (first occurrence). -/
def jsonLookup (k : String) : List (String × JsonVal) → Option JsonVal
  | [] => none
  | (k', v) :: rest => if k' = k then some v else jsonLookup k rest

/-- The JSON body `{ error: msg }` produced by `NextResponse.json({ error: ... })`. -/
def errJson (msg : String) : JsonVal :=
  JsonVal.obj [("error", JsonVal.str msg)]

/-- A response returned by a gateway route: HTTP status plus JSON body. -/
structure ApiResponse where
  status : Nat
  json : JsonVal

/-- One HTTP request the gateway sends to the Python backend. -/
structure BackendCall where
  path : String
  method : String
  body : List (String × JsonVal)

/-- What the backend answers: its HTTP status and its JSON body. -/
structure BackendResp where
  status : Nat
  json : JsonVal

/-- The `fetch` Response.ok flag: status in the range 200–299. -/
def respOk (s : Nat) : Bool :=
  decide (200 ≤ s ∧ s < 300)

/-- JavaScript `errorData.detail || fallback`: the backend error body's
`detail` field when it is a non-empty string, else the fallback message.
(`await response.json().catch(() => ({}))` means a non-object body also
falls back.) -/
def detailOr (fallback : String) : JsonVal → String
  | JsonVal.obj fields =>
    match jsonLookup "detail" fields with
    | some (JsonVal.str d) => if d.isEmpty then fallback else d
    | _ => fallback
  | _ => fallback

/-- Parsed body of a POST to `/api/scrape`. The route destructures only
`url` and `maxPages` (`const { url, maxPages = 5 } = await request.json()`);
`customInstructions`, although sent by the UI client, is carried here so we
can state that the route never reads or forwards it. -/
structure ScrapeReqBody where
  url : Option String
  maxPages : Option Int
  customInstructions : Option String

/-- Embedding of `POST` in `src/frontend/app/api/scrape/route.ts`.
`validURL` is the oracle for `new URL(url)` succeeding; `backend` is the
Python API. Returns the gateway response and the backend calls issued. -/
def scrapePOST (validURL : String → Bool) (backend : BackendCall → BackendResp)
    (body : ScrapeReqBody) : ApiResponse × List BackendCall :=
  match body.url with
  | none => ({ status := 400, json := errJson "URL is required" }, [])
  | some u =>
    if u.isEmpty then
      ({ status := 400, json := errJson "URL is required" }, [])
    else if validURL u then
      let call : BackendCall :=
        { path := "/scrape", method := "POST",
          body := [("url", JsonVal.str u),
                   ("max_pages", JsonVal.num (body.maxPages.getD 5))] }
      let resp := backend call
      if respOk resp.status then
        ({ status := 200, json := resp.json }, [call])
      else
        ({ status := 500,
           json := errJson (detailOr "Failed to start scraping job" resp.json) }, [call])
    else
      ({ status := 400, json := errJson "Invalid URL format" }, [])

/-- Parsed body of a POST to `/api/test-scrape` (`src/unnamed/part_001`).
That route destructures `url` and `customInstructions`. -/
structure TestScrapeReqBody where
  url : Option String
  customInstructions : Option String

/-- JavaScript `customInstructions || null` serialized into the forwarded
body: a non-empty string stays, everything falsy becomes JSON null. -/
def ciOrNull : Option String → JsonVal
  | some s => if s.isEmpty then JsonVal.nullV else JsonVal.str s
  | none => JsonVal.nullV

/-- Embedding of `POST` in the test-scrape route (`src/unnamed/part_001`). -/
def testScrapePOST (validURL : String → Bool) (backend : BackendCall → BackendResp)
    (body : TestScrapeReqBody) : ApiResponse × List BackendCall :=
  match body.url with
  | none => ({ status := 400, json := errJson "URL is required" }, [])
  | some u =>
    if u.isEmpty then
      ({ status := 400, json := errJson "URL is required" }, [])
    else if validURL u then
      let call : BackendCall :=
        { path := "/test-scrape", method := "POST",
          body := [("url", JsonVal.str u),
                   ("custom_instructions", ciOrNull body.customInstructions)] }
      let resp := backend call
      if respOk resp.status then
        ({ status := 200, json := resp.json }, [call])
      else
        ({ status := 500,
           json := errJson (detailOr "Failed to start test scraping job" resp.json) }, [call])
    else
      ({ status := 400, json := errJson "Invalid URL format" }, [])

/-- One important-links entry as the polling client reads it. -/
structure LinkInfo where
  url : String
  text : String
  reason : Option String

/-- The `result` object of a completed job, with the fields the client in
`src/unnamed/part_000` reads (optional fields are read with `||` fallbacks;
`metadata?.extractionMethod` is flattened into one optional field). -/
structure ResultData where
  url : String
  title : String
  cleanedContent : Option String
  wordCount : Option Nat
  qualityScore : Option Int
  importantLinks : Option (List LinkInfo)
  description : Option String
  pagesScraped : Option Nat
  extractionMethod : Option String
  customInstructionsApplied : Option Bool

/-- The client-side `ScrapedData` record built by `setScrapedData` (lines
134–150 of `src/unnamed/part_000`); the wall-clock `timestamp` field is
environment input and is left out of the embedding. -/
structure ScrapedData where
  url : String
  title : String
  content : String
  wordCount : Nat
  qualityScore : Int
  importantLinks : List LinkInfo
  description : Option String
  pagesScraped : Nat
  averageQualityScore : Option Int
  extractionMethod : String
  isTestScrape : Bool
  customInstructionsApplied : Bool

/-- The mapping from a job `result` to the client record, mirroring each
`x || default` fallback in the source. -/
def mkScrapedData (testMode : Bool) (r : ResultData) : ScrapedData :=
  { url := r.url
    title := r.title
    content := (r.cleanedContent.getD "")
    wordCount := (r.wordCount.getD 0)
    qualityScore := (r.qualityScore.getD 0)
    importantLinks := (r.importantLinks.getD [])
    description := r.description
    pagesScraped := (r.pagesScraped.getD 1)
    averageQualityScore := r.qualityScore
    extractionMethod := (r.extractionMethod.getD "enhanced")
    isTestScrape := testMode
    customInstructionsApplied := (r.customInstructionsApplied.getD false) }

/-- One job-status response as the polling client parses it. -/
structure StatusData where
  status : String
  progress : Nat
  message : String
  result : Option ResultData
  error : Option String

/-- JavaScript `statusData.error || "Scraping failed"`. -/
def pollErrMsg (e : Option String) : String :=
  match e with
  | some m => if m.isEmpty then "Scraping failed" else m
  | none => "Scraping failed"

/-- The client state written by one firing of the polling interval. -/
structure ClientUpdate where
  stage : String
  progress : Nat
  message : String
  recorded : Option ScrapedData
  stop : Bool

/-- One firing of the 2-second polling interval in `handleScrapeUrl`
(`src/unnamed/part_000`, lines 115–169). `none` stands for a failed status
fetch (the `catch` path); `stop` records whether `clearInterval` ran. -/
def pollStep (testMode : Bool) (o : Option StatusData) : ClientUpdate :=
  match o with
  | none =>
    { stage := "error", progress := 0,
      message := "Failed to get scraping status", recorded := none, stop := true }
  | some s =>
    if s.status = "completed" then
      match s.result with
      | some r =>
        { stage := "complete", progress := s.progress, message := s.message,
          recorded := some (mkScrapedData testMode r), stop := true }
      | none =>
        { stage := "complete", progress := s.progress, message := s.message,
          recorded := none, stop := false }
    else if s.status = "error" then
      { stage := "error", progress := 0, message := pollErrMsg s.error,
        recorded := none, stop := true }
    else
      { stage := "scraping", progress := s.progress, message := s.message,
        recorded := none, stop := false }

/-- The polling interval period, `setInterval(..., 2000)`: 2000 ms. -/
def pollIntervalMs : Nat := 2000

/-- The give-up bound, `setTimeout(() => clearInterval(...), 300000)`:
300000 ms, i.e. 5 minutes. -/
def pollGiveUpMs : Nat := 300000

/-- The polling loop: the interval fires on successive status responses
until `clearInterval` runs, and the give-up timer allows at most `fuel`
firings (`pollGiveUpMs / pollIntervalMs` in the client). -/
def runPolling (testMode : Bool) : List (Option StatusData) → Nat → List ClientUpdate
  | _, 0 => []
  | [], _ => []
  | o :: rest, fuel + 1 =>
    let u := pollStep testMode o
    if u.stop then [u] else u :: runPolling testMode rest fuel

/-- Holds when no update before the final one stopped the interval: the
loop halts at the first terminal update. -/
def stopsOnlyAtEnd : List ClientUpdate → Prop
  | [] => True
  | [_] => True
  | u :: v :: rest => u.stop = false ∧ stopsOnlyAtEnd (v :: rest)

/-- Embedding of `GET` for `/api/scrape/[jobId]` (the job-status gateway,
second file in `src/frontend/app/layout.tsx`): pass the backend body
through on success, map backend 404 to `Job not found`, anything else to a
500. -/
def jobStatusGET (backend : BackendResp) : ApiResponse :=
  if respOk backend.status then
    { status := 200, json := backend.json }
  else if backend.status = 404 then
    { status := 404, json := errJson "Job not found" }
  else
    { status := 500, json := errJson "Failed to get job status" }

/-- Embedding of `DELETE` for `/api/scrape/[jobId]`, same file. -/
def jobDELETE (backend : BackendResp) : ApiResponse :=
  if respOk backend.status then
    { status := 200, json := backend.json }
  else if backend.status = 404 then
    { status := 404, json := errJson "Job not found" }
  else
    { status := 500, json := errJson "Failed to delete job" }

/-- A chat message as destructured by the chat route. -/
structure ChatMessage where
  role : String
  content : String

/-- Parsed body of a POST to `/api/chat`; `messages = none` stands for a
missing or non-array `messages` field. -/
structure ChatReqBody where
  messages : Option (List ChatMessage)
  scrapedContent : Option String

/-- The chat route input: either the parsed JSON body, or a thrown parse
error caught by the handler's `catch` (with the error message). -/
inductive ChatInput where
  | parseFail : String → ChatInput
  | okBody : ChatReqBody → ChatInput

/-- Text of the grounded system prompt before the scraped content. -/
def chatPromptPre : String :=
  "You are a helpful AI assistant that can answer questions about the following scraped web content. Use this content to provide accurate and detailed responses.\n\nSCRAPED CONTENT:\n"

/-- Text of the grounded system prompt after the scraped content. -/
def chatPromptPost : String :=
  "\n\nInstructions:\n- Answer questions based on the scraped content above\n- If the question cannot be answered from the content, say so clearly\n- Provide specific details and examples from the content when relevant\n- Be concise but comprehensive in your responses"

/-- The fallback system prompt used when no scraped content was supplied. -/
def chatFallbackPrompt : String :=
  "You are a helpful AI assistant. However, no web content has been provided for you to analyze. Please ask the user to scrape a website first before asking questions about its content."

/-- The ternary `scrapedContent ? groundedTemplate : fallback` in the chat
route: a non-empty string is spliced verbatim between the two template
halves, anything falsy selects the fallback prompt. -/
def chatSystemPrompt (scrapedContent : Option String) : String :=
  match scrapedContent with
  | some c => if c.isEmpty then chatFallbackPrompt else chatPromptPre ++ c ++ chatPromptPost
  | none => chatFallbackPrompt

/-- What the chat handler produces: a JSON error response or a model
streaming call carrying the system prompt and the messages. -/
inductive ChatOutcome where
  | errorJson : Nat → String → ChatOutcome
  | stream : String → List ChatMessage → ChatOutcome

/-- Embedding of `POST` in `src/frontend/app/api/chat/route.ts`. Every
branch, the `catch` included, yields a value of `ChatOutcome`, so a failure
is always a JSON error response. -/
def chatPOST (apiKeyPresent : Bool) (input : ChatInput) : ChatOutcome :=
  match input with
  | ChatInput.parseFail msg => ChatOutcome.errorJson 500 msg
  | ChatInput.okBody body =>
    match body.messages with
    | none => ChatOutcome.errorJson 400 "Invalid messages format"
    | some ms =>
      let systemPrompt := chatSystemPrompt body.scrapedContent
      if apiKeyPresent then
        ChatOutcome.stream systemPrompt ms
      else
        ChatOutcome.errorJson 500 "AI service not configured"

/-- What the export backend answers: HTTP status and raw body text. -/
structure ExportBackendResp where
  status : Nat
  text : String

/-- What the export route produces: a JSON error, or a file download with
its Content-Type and Content-Disposition headers. -/
inductive ExportOutcome where
  | errorJson : Nat → String → ExportOutcome
  | file : String → String → String → ExportOutcome

/-- Embedding of `GET` for `/api/export/[jobId]/[format]`
(`src/unnamed/part_002`). Returns the outcome and the backend paths
fetched. -/
def exportGET (backend : String → ExportBackendResp) (jobId fmt : String) :
    ExportOutcome × List String :=
  if fmt = "json" ∨ fmt = "csv" then
    let path := "/export/" ++ jobId ++ "/" ++ fmt
    let resp := backend path
    if respOk resp.status then
      let contentType := if fmt = "json" then "application/json" else "text/csv"
      let fileExtension := if fmt = "json" then "json" else "csv"
      (ExportOutcome.file contentType
        ("attachment; filename=scrape_results_" ++ jobId ++ "." ++ fileExtension)
        resp.text, [path])
    else if resp.status = 404 then
      (ExportOutcome.errorJson 404 "Job not found", [path])
    else
      (ExportOutcome.errorJson 500 "Failed to export data", [path])
  else
    (ExportOutcome.errorJson 400 "Invalid format. Use \x27json\x27 or \x27csv\x27", [])

/-- Modelled from the spec: the `CleanedContent` record of section 3. The
Quality Scorer and the rest of the Python content engine are not among the
provided source files; only their contracts are specified. -/
structure CleanedContent where
  text : String
  stagesApplied : List String
  wordCount : Nat

/-- Whitespace-separated non-empty tokens of a text. -/
def wordsOf (t : String) : List String :=
  (t.split (fun c => c.isWhitespace)).filter (fun w => !w.isEmpty)

/-- Non-blank paragraphs: blocks separated by a blank line. -/
def paragraphsOf (t : String) : List String :=
  (t.splitOn "\n\n").filter (fun p => !(p.trim.isEmpty))

/-- Sentence count, at least 1, from terminal punctuation marks. -/
def sentenceCount (t : String) : Nat :=
  max 1 (t.toList.filter (fun c => c == '.' || c == '!' || c == '?')).length

/-- Average sentence length in words. -/
def avgSentenceLen (t : String) : Nat :=
  (wordsOf t).length / sentenceCount t

/-- Modelled from the spec: the length subscore peaks for 100–3000 words
and is penalized both below and above that band (section 4.5). -/
def lengthSubscore (w : Nat) : Int :=
  if w = 0 then 0
  else if w < 100 then Int.ofNat w
  else if w ≤ 3000 then 100
  else max 0 (100 - (Int.ofNat w - 3000) / 100)

/-- Modelled from the spec: the structure subscore rewards the presence of
multiple paragraphs and a reasonable average sentence length. -/
def structureSubscore (t : String) : Int :=
  (if 2 ≤ (paragraphsOf t).length then 60
   else if 1 ≤ (paragraphsOf t).length then 30 else 0)
  + (if 5 ≤ avgSentenceLen t ∧ avgSentenceLen t ≤ 30 then 40 else 0)

/-- Modelled from the spec: the vocabulary subscore is the unique-to-total
word fraction with diminishing returns. -/
def vocabularySubscore (t : String) : Int :=
  let ws := wordsOf t
  if ws.length = 0 then 0
  else min 100 (Int.ofNat ((ws.dedup.length * 150) / ws.length))

/-- A recognized substantive-content marker: a numeral-bearing token or a
proper-noun-like capitalized token. -/
def isIndicatorWord (w : String) : Bool :=
  w.any Char.isDigit ||
    (match w.toList with
     | c :: _ => c.isUpper
     | [] => false)

/-- Modelled from the spec: the indicators subscore counts recognized
substantive-content markers; the count itself is unbounded, which is why
the final total must be clamped after summation. -/
def indicatorsSubscore (t : String) : Int :=
  10 * Int.ofNat ((wordsOf t).filter isIndicatorWord).length

/-- Modelled from the spec: the readability subscore penalizes a very long
average sentence length. -/
def readabilitySubscore (t : String) : Int :=
  if avgSentenceLen t ≤ 25 then 100
  else max 0 (100 - 5 * (Int.ofNat (avgSentenceLen t) - 25))

/-- Modelled from the spec: `QualityScore` with its total and the
independently computed subscores. -/
structure QualityScore where
  total : Int
  lengthScore : Int
  structureScore : Int
  vocabularyScore : Int
  indicatorsScore : Int
  readabilityScore : Int

/-- Clamp of the weighted sum into [0, 100], applied after summation. -/
def clampScore (x : Int) : Int :=
  min 100 (max 0 x)

/-- Modelled from the spec: `score(cleaned_content) → QualityScore`, the
weighted composite of section 4.5 — length 30%, structure 25%, vocabulary
20%, indicators 15%, readability 10% — with the final total clamped to
[0, 100] after the weighted summation. The scorer reads only the cleaned
text (word counts are recomputed, never taken from a cached field). -/
def scoreText (t : String) : QualityScore :=
  let l := lengthSubscore (wordsOf t).length
  let st := structureSubscore t
  let v := vocabularySubscore t
  let ind := indicatorsSubscore t
  let r := readabilitySubscore t
  let raw := (30 * l + 25 * st + 20 * v + 15 * ind + 10 * r) / 100
  { total := clampScore raw
    lengthScore := l
    structureScore := st
    vocabularyScore := v
    indicatorsScore := ind
    readabilityScore := r }

/-- Modelled from the spec: the scorer entry point on a `CleanedContent`. -/
def score (c : CleanedContent) : QualityScore :=
  scoreText c.text

/-- C1: the claim says every scrape request forwards the client-supplied
custom_instructions value (null when absent) to the backend job-creation
service. The code contradicts it: `POST` in
`src/frontend/app/api/scrape/route.ts` destructures only `url` and
`maxPages` and forwards the body `{ url, max_pages }`, so the
`customInstructions` value sent by the UI never reaches the job. This
theorem evaluates the handler at a concrete request carrying custom
instructions: exactly one backend call is made, its body has no
`custom_instructions` key, and it consists of the `url` and `max_pages`
fields only. -/
theorem c1_scrape_drops_custom_instructions :
    (scrapePOST (fun _ => true) (fun _ => { status := 200, json := JsonVal.nullV })
      { url := some "https://example.com", maxPages := none,
        customInstructions := some "Extract only product names and prices" }).2 =
      [{ path := "/scrape", method := "POST",
         body := [("url", JsonVal.str "https://example.com"),
                  ("max_pages", JsonVal.num 5)] }] ∧
    ((scrapePOST (fun _ => true) (fun _ => { status := 200, json := JsonVal.nullV })
      { url := some "https://example.com", maxPages := none,
        customInstructions := some "Extract only product names and prices" }).2.map
      (fun call => jsonLookup "custom_instructions" call.body)) = [none] :=
  ⟨rfl, rfl⟩

/-- C2: a scrape or test-scrape request whose body lacks a url, or whose
url the URL parser rejects, is answered with HTTP 400 and an error
message, and no backend call is made, so no job is ever created for such
input. -/
theorem c2_invalid_url_rejected_no_job
    (validURL : String → Bool) (backend : BackendCall → BackendResp)
    (sBody : ScrapeReqBody) (tBody : TestScrapeReqBody)
    (hs : sBody.url = none ∨
      ∃ u, sBody.url = some u ∧ (u.isEmpty = true ∨ validURL u = false))
    (ht : tBody.url = none ∨
      ∃ u, tBody.url = some u ∧ (u.isEmpty = true ∨ validURL u = false)) :
    ((scrapePOST validURL backend sBody).1.status = 400 ∧
     (∃ m, (scrapePOST validURL backend sBody).1.json = errJson m ∧ m ≠ "") ∧
     (scrapePOST validURL backend sBody).2 = []) ∧
    ((testScrapePOST validURL backend tBody).1.status = 400 ∧
     (∃ m, (testScrapePOST validURL backend tBody).1.json = errJson m ∧ m ≠ "") ∧
     (testScrapePOST validURL backend tBody).2 = []) := by
  constructor
  · rcases hs with h | ⟨u, hu, hbad⟩
    · refine ⟨?_, ⟨"URL is required", ?_, by decide⟩, ?_⟩ <;> simp [scrapePOST, h]
    · rcases hbad with hemp | hv
      · refine ⟨?_, ⟨"URL is required", ?_, by decide⟩, ?_⟩ <;> simp [scrapePOST, hu, hemp]
      · by_cases hemp : u.isEmpty
        · refine ⟨?_, ⟨"URL is required", ?_, by decide⟩, ?_⟩ <;> simp [scrapePOST, hu, hemp]
        · refine ⟨?_, ⟨"Invalid URL format", ?_, by decide⟩, ?_⟩ <;>
            simp [scrapePOST, hu, hemp, hv]
  · rcases ht with h | ⟨u, hu, hbad⟩
    · refine ⟨?_, ⟨"URL is required", ?_, by decide⟩, ?_⟩ <;> simp [testScrapePOST, h]
    · rcases hbad with hemp | hv
      · refine ⟨?_, ⟨"URL is required", ?_, by decide⟩, ?_⟩ <;> simp [testScrapePOST, hu, hemp]
      · by_cases hemp : u.isEmpty
        · refine ⟨?_, ⟨"URL is required", ?_, by decide⟩, ?_⟩ <;> simp [testScrapePOST, hu, hemp]
        · refine ⟨?_, ⟨"Invalid URL format", ?_, by decide⟩, ?_⟩ <;>
            simp [testScrapePOST, hu, hemp, hv]

/-- Witness for C2 at a concrete rejecting URL parser and concrete bodies:
a scrape request with an unparsable url issues no backend call, and a
test-scrape request without a url is answered 400. -/
theorem c2_invalid_url_rejected_no_job_witness :
    (scrapePOST (fun _ => false) (fun _ => { status := 200, json := JsonVal.nullV })
      { url := some "not a url", maxPages := none, customInstructions := none }).2 = [] ∧
    (testScrapePOST (fun _ => false) (fun _ => { status := 200, json := JsonVal.nullV })
      { url := none, customInstructions := none }).1.status = 400 :=
  ⟨(c2_invalid_url_rejected_no_job (fun _ => false)
      (fun _ => { status := 200, json := JsonVal.nullV })
      { url := some "not a url", maxPages := none, customInstructions := none }
      { url := none, customInstructions := none }
      (Or.inr ⟨"not a url", rfl, Or.inr rfl⟩) (Or.inl rfl)).1.2.2,
   (c2_invalid_url_rejected_no_job (fun _ => false)
      (fun _ => { status := 200, json := JsonVal.nullV })
      { url := some "not a url", maxPages := none, customInstructions := none }
      { url := none, customInstructions := none }
      (Or.inr ⟨"not a url", rfl, Or.inr rfl⟩) (Or.inl rfl)).2.1⟩

/-- C9: a scrape request that omits maxPages is forwarded to the backend
with max_pages = 5, the documented default. -/
theorem c9_default_max_pages_five
    (validURL : String → Bool) (backend : BackendCall → BackendResp)
    (u : String) (ci : Option String)
    (hne : u.isEmpty = false) (hv : validURL u = true) :
    (scrapePOST validURL backend
      { url := some u, maxPages := none, customInstructions := ci }).2 =
      [{ path := "/scrape", method := "POST",
         body := [("url", JsonVal.str u), ("max_pages", JsonVal.num 5)] }] := by
  simp only [scrapePOST, hne, hv, Bool.false_eq_true, if_false, if_true]
  split <;> rfl

/-- Witness for C9 at a concrete request omitting maxPages. -/
theorem c9_default_max_pages_five_witness :
    (scrapePOST (fun _ => true) (fun _ => { status := 200, json := JsonVal.nullV })
      { url := some "https://example.com", maxPages := none, customInstructions := none }).2 =
      [{ path := "/scrape", method := "POST",
         body := [("url", JsonVal.str "https://example.com"),
                  ("max_pages", JsonVal.num 5)] }] :=
  c9_default_max_pages_five (fun _ => true)
    (fun _ => { status := 200, json := JsonVal.nullV }) "https://example.com" none rfl rfl

/-- C6: a test-scrape request with a valid url forwards exactly one
request to the backend single-page test service, whose body carries that
url and the supplied custom_instructions (JSON null when none was given),
and on a successful backend answer the gateway returns the backend's JSON
body to the caller. -/
theorem c6_test_scrape_forwards_url_and_instructions
    (validURL : String → Bool) (backend : BackendCall → BackendResp)
    (body : TestScrapeReqBody) (u : String)
    (hu : body.url = some u) (hne : u.isEmpty = false) (hv : validURL u = true) :
    (testScrapePOST validURL backend body).2 =
      [{ path := "/test-scrape", method := "POST",
         body := [("url", JsonVal.str u),
                  ("custom_instructions", ciOrNull body.customInstructions)] }] ∧
    (body.customInstructions = none → ciOrNull body.customInstructions = JsonVal.nullV) ∧
    (∀ c : BackendCall,
      c = { path := "/test-scrape", method := "POST",
            body := [("url", JsonVal.str u),
                     ("custom_instructions", ciOrNull body.customInstructions)] } →
      respOk (backend c).status = true →
      (testScrapePOST validURL backend body).1 =
        { status := 200, json := (backend c).json }) := by
  refine ⟨?_, ?_, ?_⟩
  · simp only [testScrapePOST, hu, hne, hv, Bool.false_eq_true, if_false, if_true]
    split <;> rfl
  · intro h
    simp [ciOrNull, h]
  · intro c hc hok
    subst hc
    simp only [testScrapePOST, hu, hne, hv, Bool.false_eq_true, if_false, if_true, hok]

/-- Witness for C6 at a concrete valid request with instructions given. -/
theorem c6_test_scrape_forwards_url_and_instructions_witness :
    (testScrapePOST (fun _ => true) (fun _ => { status := 200, json := JsonVal.nullV })
      { url := some "https://example.com", customInstructions := some "Focus on main content" }).2 =
      [{ path := "/test-scrape", method := "POST",
         body := [("url", JsonVal.str "https://example.com"),
                  ("custom_instructions", ciOrNull (some "Focus on main content"))] }] :=
  (c6_test_scrape_forwards_url_and_instructions (fun _ => true)
    (fun _ => { status := 200, json := JsonVal.nullV })
    { url := some "https://example.com", customInstructions := some "Focus on main content" }
    "https://example.com" rfl rfl rfl).1

/-- C7: when the backend job store answers 404 for a job-status GET or a
job DELETE, the gateway responds with HTTP 404 and the error message
Job not found, not a success payload. -/
theorem c7_unknown_job_returns_404 (b : BackendResp) (h : b.status = 404) :
    jobStatusGET b = { status := 404, json := errJson "Job not found" } ∧
    jobDELETE b = { status := 404, json := errJson "Job not found" } := by
  constructor <;> simp [jobStatusGET, jobDELETE, respOk, h]

/-- Witness for C7 at a concrete 404 backend answer. -/
theorem c7_unknown_job_returns_404_witness :
    jobStatusGET { status := 404, json := JsonVal.nullV } =
      { status := 404, json := errJson "Job not found" } ∧
    jobDELETE { status := 404, json := JsonVal.nullV } =
      { status := 404, json := errJson "Job not found" } :=
  c7_unknown_job_returns_404 { status := 404, json := JsonVal.nullV } rfl

/-- C10: an export request with a format other than json or csv is
rejected with HTTP 400 before any backend call; a successful json export
is served with Content-Type application/json and a successful csv export
with text/csv, in both cases with a Content-Disposition attachment whose
filename carries the job id and the matching extension. -/
theorem c10_export_format_validation_and_headers
    (backend : String → ExportBackendResp) (jobId : String) :
    (∀ fmt, fmt ≠ "json" → fmt ≠ "csv" →
      exportGET backend jobId fmt =
        (ExportOutcome.errorJson 400 "Invalid format. Use \x27json\x27 or \x27csv\x27", [])) ∧
    (respOk (backend ("/export/" ++ jobId ++ "/" ++ "json")).status = true →
      exportGET backend jobId "json" =
        (ExportOutcome.file "application/json"
          ("attachment; filename=scrape_results_" ++ jobId ++ "." ++ "json")
          (backend ("/export/" ++ jobId ++ "/" ++ "json")).text,
         ["/export/" ++ jobId ++ "/" ++ "json"])) ∧
    (respOk (backend ("/export/" ++ jobId ++ "/" ++ "csv")).status = true →
      exportGET backend jobId "csv" =
        (ExportOutcome.file "text/csv"
          ("attachment; filename=scrape_results_" ++ jobId ++ "." ++ "csv")
          (backend ("/export/" ++ jobId ++ "/" ++ "csv")).text,
         ["/export/" ++ jobId ++ "/" ++ "csv"])) := by
  refine ⟨?_, ?_, ?_⟩
  · intro fmt h1 h2
    simp [exportGET, h1, h2]
  · intro hok
    simp [exportGET, hok]
  · intro hok
    simp [exportGET, hok]

/-- Witness for C10: a concrete xml request is rejected without a backend
call, and a concrete successful json export carries the expected headers. -/
theorem c10_export_format_validation_and_headers_witness :
    exportGET (fun _ => { status := 200, text := "data" }) "job-1" "xml" =
      (ExportOutcome.errorJson 400 "Invalid format. Use \x27json\x27 or \x27csv\x27", []) ∧
    exportGET (fun _ => { status := 200, text := "data" }) "job-1" "json" =
      (ExportOutcome.file "application/json"
        ("attachment; filename=scrape_results_" ++ "job-1" ++ "." ++ "json") "data",
       ["/export/" ++ "job-1" ++ "/" ++ "json"]) :=
  ⟨(c10_export_format_validation_and_headers
      (fun _ => { status := 200, text := "data" }) "job-1").1 "xml" (by decide) (by decide),
   (c10_export_format_validation_and_headers
      (fun _ => { status := 200, text := "data" }) "job-1").2.1 rfl⟩

/-- C8: when a non-empty scrapedContent is supplied, the system prompt
streamed to the text-generation model contains that content verbatim
between the two template halves; when it is empty or absent the fallback
prompt asking the user to scrape first is used; and every failure branch
(bad messages, missing API key, thrown parse error) yields a JSON error
response, never an unhandled exception. -/
theorem c8_chat_prompt_grounded_and_errors_json :
    (∀ (ms : List ChatMessage) (c : String) (sc : Option String),
      sc = some c → c.isEmpty = false →
      chatPOST true (ChatInput.okBody { messages := some ms, scrapedContent := sc }) =
        ChatOutcome.stream (chatPromptPre ++ c ++ chatPromptPost) ms) ∧
    (∀ (ms : List ChatMessage) (sc : Option String),
      (∀ c, sc = some c → c.isEmpty = true) →
      chatPOST true (ChatInput.okBody { messages := some ms, scrapedContent := sc }) =
        ChatOutcome.stream chatFallbackPrompt ms) ∧
    (∀ (key : Bool) (sc : Option String),
      chatPOST key (ChatInput.okBody { messages := none, scrapedContent := sc }) =
        ChatOutcome.errorJson 400 "Invalid messages format") ∧
    (∀ (ms : List ChatMessage) (sc : Option String),
      chatPOST false (ChatInput.okBody { messages := some ms, scrapedContent := sc }) =
        ChatOutcome.errorJson 500 "AI service not configured") ∧
    (∀ (key : Bool) (msg : String),
      chatPOST key (ChatInput.parseFail msg) = ChatOutcome.errorJson 500 msg) := by
  refine ⟨?_, ?_, ?_, ?_, ?_⟩
  · intro ms c sc hsc hne
    subst hsc
    simp [chatPOST, chatSystemPrompt, hne]
  · intro ms sc h
    cases sc with
    | none => simp [chatPOST, chatSystemPrompt]
    | some c =>
      have hc := h c rfl
      simp [chatPOST, chatSystemPrompt, hc]
  · intro key sc
    simp [chatPOST]
  · intro ms sc
    simp [chatPOST]
  · intro key msg
    simp [chatPOST]

/-- Witness for C8 at a concrete grounded chat request. -/
theorem c8_chat_prompt_grounded_and_errors_json_witness :
    chatPOST true (ChatInput.okBody
      { messages := some [], scrapedContent := some "Example scraped text" }) =
      ChatOutcome.stream (chatPromptPre ++ "Example scraped text" ++ chatPromptPost) [] :=
  c8_chat_prompt_grounded_and_errors_json.1 [] "Example scraped text"
    (some "Example scraped text") rfl rfl

/-- Bounds of the final clamp applied to the weighted score sum. -/
theorem clampScore_nonneg_le (x : Int) : 0 ≤ clampScore x ∧ clampScore x ≤ 100 := by
  unfold clampScore
  exact ⟨le_min (by norm_num) (le_max_left 0 x), min_le_left 100 _⟩

/-- C5: (spec-modelled scorer) `score` is a pure deterministic function of
the cleaned content — it reads only the text, so two contents with the
same text always get the same score — and its total is clamped to
[0, 100] after the weighted summation of the subscores. -/
theorem c5_score_deterministic_clamped :
    (∀ c₁ c₂ : CleanedContent, c₁.text = c₂.text → score c₁ = score c₂) ∧
    (∀ c : CleanedContent, 0 ≤ (score c).total ∧ (score c).total ≤ 100) := by
  constructor
  · intro c₁ c₂ h
    simp [score, h]
  · intro c
    have e : (score c).total =
        clampScore ((30 * lengthSubscore (wordsOf c.text).length
          + 25 * structureSubscore c.text + 20 * vocabularySubscore c.text
          + 15 * indicatorsSubscore c.text + 10 * readabilitySubscore c.text) / 100) := rfl
    rw [e]
    exact clampScore_nonneg_le _

/-- Witness for C5: two cleaned contents with the same text but different
cached word counts and stage lists get the same score, and the score of a
concrete content is non-negative. -/
theorem c5_score_deterministic_clamped_witness :
    score { text := "Alpha beta gamma. Delta epsilon.", stagesApplied := [], wordCount := 5 } =
      score { text := "Alpha beta gamma. Delta epsilon.",
              stagesApplied := ["whitespace_normalization"], wordCount := 0 } ∧
    0 ≤ (score { text := "Alpha beta gamma. Delta epsilon.",
                 stagesApplied := [], wordCount := 5 }).total :=
  ⟨c5_score_deterministic_clamped.1 _ _ rfl,
   (c5_score_deterministic_clamped.2 _).1⟩

/-- C3: the polling client records scraped result data only from a
response with status completed and a result present; on status error it
displays a non-empty error message and records nothing. -/
theorem c3_result_recorded_only_on_completed (testMode : Bool) :
    (∀ (o : Option StatusData) (d : ScrapedData),
      (pollStep testMode o).recorded = some d →
      ∃ s r, o = some s ∧ s.status = "completed" ∧ s.result = some r ∧
        d = mkScrapedData testMode r) ∧
    (∀ s : StatusData, s.status = "error" →
      (pollStep testMode (some s)).recorded = none ∧
      (pollStep testMode (some s)).stage = "error" ∧
      (pollStep testMode (some s)).message = pollErrMsg s.error ∧
      pollErrMsg s.error ≠ "") := by
  constructor
  · intro o d h
    cases o with
    | none => simp [pollStep] at h
    | some s =>
      by_cases hc : s.status = "completed"
      · cases hr : s.result with
        | some r =>
          refine ⟨s, r, rfl, hc, hr, ?_⟩
          simp [pollStep, hc, hr] at h
          exact h.symm
        | none => simp [pollStep, hc, hr] at h
      · by_cases he : s.status = "error"
        · simp [pollStep, hc, he] at h
        · simp [pollStep, hc, he] at h
  · intro s hs
    have hc : ¬ s.status = "completed" := by rw [hs]; decide
    refine ⟨by simp [pollStep, hc, hs], by simp [pollStep, hc, hs],
      by simp [pollStep, hc, hs], ?_⟩
    cases he : s.error with
    | none => simp [pollErrMsg]
    | some m =>
      by_cases hm : m.isEmpty
      · simp [pollErrMsg, hm]
      · simp only [pollErrMsg]
        rw [if_neg hm]
        intro hcon
        rw [hcon] at hm
        exact hm rfl

/-- Witness for C3 at a concrete error-status response: nothing is
recorded and the displayed message is the non-empty error text. -/
theorem c3_result_recorded_only_on_completed_witness :
    (pollStep false (some
      { status := "error", progress := 50, message := "m",
        result := none, error := some "fetch timeout" })).recorded = none ∧
    (pollStep false (some
      { status := "error", progress := 50, message := "m",
        result := none, error := some "fetch timeout" })).message =
      pollErrMsg (some "fetch timeout") :=
  ⟨((c3_result_recorded_only_on_completed false).2 _ rfl).1,
   ((c3_result_recorded_only_on_completed false).2 _ rfl).2.2.1⟩

/-- Counterexample for C4 as stated: a status response that is terminal by
the claim's reading — status completed — but carries no result does not
stop the polling interval; the client keeps polling it. -/
theorem c4_completed_without_result_keeps_polling :
    ({ status := "completed", progress := 80, message := "Scraping page 4",
       result := none, error := none } : StatusData).status = "completed" ∧
    (pollStep false (some
      { status := "completed", progress := 80, message := "Scraping page 4",
        result := none, error := none })).stop = false :=
  ⟨rfl, rfl⟩

/-- The polling loop fires at most `fuel` times. -/
theorem runPolling_length_le (testMode : Bool) :
    ∀ (rs : List (Option StatusData)) (fuel : Nat),
      (runPolling testMode rs fuel).length ≤ fuel := by
  intro rs fuel
  induction fuel generalizing rs with
  | zero => cases rs <;> simp [runPolling]
  | succ n ih =>
    cases rs with
    | nil => simp [runPolling]
    | cons o rest =>
      simp only [runPolling]
      by_cases h : (pollStep testMode o).stop
      · simp [h]
      · simp only [h, Bool.false_eq_true, if_false, List.length_cons]
        have := ih rest
        omega

/-- The polling loop never emits an update after a stopping one. -/
theorem runPolling_stopsOnlyAtEnd (testMode : Bool) :
    ∀ (rs : List (Option StatusData)) (fuel : Nat),
      stopsOnlyAtEnd (runPolling testMode rs fuel) := by
  intro rs fuel
  induction fuel generalizing rs with
  | zero => cases rs <;> simp [runPolling, stopsOnlyAtEnd]
  | succ n ih =>
    cases rs with
    | nil => simp [runPolling, stopsOnlyAtEnd]
    | cons o rest =>
      simp only [runPolling]
      by_cases h : (pollStep testMode o).stop
      · simp [h, stopsOnlyAtEnd]
      · simp only [h, Bool.false_eq_true, if_false]
        cases hr : runPolling testMode rest n with
        | nil => simp [stopsOnlyAtEnd]
        | cons a l =>
          refine ⟨by simpa using h, ?_⟩
          have := ih rest
          rw [hr] at this
          exact this

/-- C4 (amended): the client polls at a fixed 2-second interval
(2000 ms), stops as soon as the reported status is error or is completed
with a result present — a completed status without a result does not stop
polling — halts on a failed status fetch, never continues past a stopping
update, and the 5-minute (300000 ms) give-up timer bounds the interval to
at most 150 firings. -/
theorem c4_polling_terminal_and_giveup (testMode : Bool) :
    pollIntervalMs = 2000 ∧ pollGiveUpMs = 300000 ∧
    pollGiveUpMs / pollIntervalMs = 150 ∧
    (∀ s : StatusData, s.status = "error" →
      (pollStep testMode (some s)).stop = true) ∧
    (∀ (s : StatusData) (r : ResultData), s.status = "completed" →
      s.result = some r → (pollStep testMode (some s)).stop = true) ∧
    (pollStep testMode none).stop = true ∧
    (∀ rs : List (Option StatusData),
      (runPolling testMode rs (pollGiveUpMs / pollIntervalMs)).length ≤ 150) ∧
    (∀ (rs : List (Option StatusData)) (fuel : Nat),
      stopsOnlyAtEnd (runPolling testMode rs fuel)) := by
  refine ⟨rfl, rfl, rfl, ?_, ?_, rfl, ?_, runPolling_stopsOnlyAtEnd testMode⟩
  · intro s hs
    have hc : ¬ s.status = "completed" := by rw [hs]; decide
    simp [pollStep, hc, hs]
  · intro s r hs hr
    simp [pollStep, hs, hr]
  · intro rs
    have h := runPolling_length_le testMode rs (pollGiveUpMs / pollIntervalMs)
    have e : pollGiveUpMs / pollIntervalMs = 150 := rfl
    rw [e] at h ⊢
    exact h

/-- Witness for C4 (amended) at concrete inputs: an error response stops
the interval, and an empty response stream stays within the give-up
bound. -/
theorem c4_polling_terminal_and_giveup_witness :
    (pollStep false (some
      { status := "error", progress := 0, message := "x",
        result := none, error := none })).stop = true ∧
    (runPolling false [] (pollGiveUpMs / pollIntervalMs)).length ≤ 150 :=
  ⟨(c4_polling_terminal_and_giveup false).2.2.2.1 _ rfl,
   (c4_polling_terminal_and_giveup false).2.2.2.2.2.2.1 []⟩
